import Mathlib

/-!
Shallow embedding of the campaign-analysis proxy
(src/types.ts, src/api/analyze.ts, and the results table's CSV export).

Conventions of the embedding:
* JavaScript numbers are modelled as rationals (ℚ).
* A JSON field that may be absent is an `Option`; JavaScript falsiness of a
  string-valued field (`undefined` or the empty string) is `strFalsy`.
* The serverless `handler` of src/api/analyze.ts is a pure function of the
  request method, the `API_KEY` environment value, the request body, and the
  scoring oracle.  The external Gemini call (transport, JSON parsing of its
  reply and the check for the `results` key) is modelled as a parameter
  `oracle : String → Except String (List CampaignAnalysisResult)`: `Except.error e`
  stands for any throw inside the try block after the prompt is assembled.
* `String(value)` stringification of a JavaScript number is modelled by an
  arbitrary parameter `numStr : ℚ → String`; none of the CSV theorems depend
  on its behaviour.
-/

/-- One entry of `audienceOptions` / `toneOptions` in src/types.ts: a stored
value and its display label. -/
structure SelectOption where
  value : String
  label : String
deriving DecidableEq

/-- The preset audiences of src/types.ts (`audienceOptions`). -/
def audienceOptions : List SelectOption :=
  [⟨"general", "General Consumers (B2C)"⟩,
   ⟨"genz", "Gen Z / Young Adults"⟩,
   ⟨"millennials", "Millennials"⟩,
   ⟨"parents", "Parents / Families"⟩,
   ⟨"b2b", "B2B Professionals / Decision Makers"⟩,
   ⟨"smb", "Small Business Owners"⟩,
   ⟨"custom", "Custom..."⟩]

/-- The preset brand tones of src/types.ts (`toneOptions`). -/
def toneOptions : List SelectOption :=
  [⟨"professional", "Professional / Authoritative"⟩,
   ⟨"friendly", "Friendly / Conversational"⟩,
   ⟨"humorous", "Humorous / Witty"⟩,
   ⟨"empathetic", "Empathetic / Caring"⟩,
   ⟨"inspirational", "Inspirational / Aspirational"⟩,
   ⟨"urgent", "Direct / Urgent"⟩,
   ⟨"custom", "Custom..."⟩]

/-- A call-to-action record (interface `CTA` in src/types.ts): the required
field `'CTA Text'` (here `ctaText`), the optional numeric sub-scores, and the
open index signature `[key: string]: any`, modelled as an association list of
extra fields. -/
structure CTA where
  ctaText : String
  typeScore : Option ℚ
  toneScore : Option ℚ
  simpleAvg : Option ℚ
  extra : List (String × String)
deriving DecidableEq

/-- Optional targeting context (interface `CampaignGoalDetails` in
src/types.ts); every field is optional. -/
structure CampaignGoalDetails where
  targetAudience : Option String
  customTargetAudience : Option String
  brandTone : Option String
  customBrandTone : Option String
  keyMessage : Option String
deriving DecidableEq

/-- One score record per campaign message (interface `CampaignAnalysisResult`
in src/types.ts). -/
structure CampaignAnalysisResult where
  campaignMessage : String
  combinedEmotionScore : ℚ
  clarityAndImpactScore : ℚ
  trendRelevanceScore : ℚ
  steppsShareabilityScore : ℚ
  ctaStrengthScore : ℚ
  subjectiveFitScore : ℚ
  weightedCampaignConfidenceScore : ℚ
  recommendation : String
deriving DecidableEq

/-- JavaScript falsiness of an optional string value: `undefined` and the
empty string are falsy, every other string is truthy. -/
def strFalsy : Option String → Bool
  | none => true
  | some s => s == ""

/-- The `getAudienceText` closure of src/api/analyze.ts (lines 83-87):
falsy `targetAudience` gives nothing, `custom` reads `customTargetAudience`,
otherwise the label of the matching entry of `audienceOptions`. -/
def getAudienceText (details : CampaignGoalDetails) : Option String :=
  match details.targetAudience with
  | none => none
  | some ta =>
    if ta = "" then none
    else if ta = "custom" then details.customTargetAudience
    else (audienceOptions.find? fun opt => opt.value == ta).map SelectOption.label

/-- The `getBrandToneText` closure of src/api/analyze.ts (lines 89-93). -/
def getBrandToneText (details : CampaignGoalDetails) : Option String :=
  match details.brandTone with
  | none => none
  | some bt =>
    if bt = "" then none
    else if bt = "custom" then details.customBrandTone
    else (toneOptions.find? fun opt => opt.value == bt).map SelectOption.label

/-- The `getOptionalDetailsInstructions` closure of src/api/analyze.ts
(lines 80-117): an optional block enumerating target audience, brand tone and
key message, wrapped in the penalty instruction when any of them is given. -/
def getOptionalDetailsInstructions (details : CampaignGoalDetails) : String :=
  let audienceText := getAudienceText details
  let brandToneText := getBrandToneText details
  let instructions :=
    (if strFalsy audienceText then "" else
      "- **Target Audience:** \"" ++ audienceText.getD "" ++
      "\". The message should resonate with this specific group.\n") ++
    (if strFalsy brandToneText then "" else
      "- **Brand Tone/Voice:** \"" ++ brandToneText.getD "" ++
      "\". The message's tone must be consistent with this brand voice.\n") ++
    (if strFalsy details.keyMessage then "" else
      "- **Key Message/USP:** \"" ++ (details.keyMessage.getD "") ++
      "\". The message should clearly communicate or reinforce this core idea.\n")
  if instructions == "" then ""
  else
    "\n        **Optional Campaign Details for Deeper Analysis:**\n        You MUST evaluate the campaign's fit against these specific details. The subjectiveFitScore should be heavily penalized if the message clashes with this context.\n    "
    ++ instructions ++ "\n            "

/-- The neutral balanced-weighting instruction: the `default` branch of the
switch in `getMarketingObjectiveInstructions` (src/api/analyze.ts line 76). -/
def defaultObjectiveInstructions : String :=
  "No specific objective provided. Use a general-purpose analysis, balancing all factors equally."

/-- The `getMarketingObjectiveInstructions` closure of src/api/analyze.ts
(lines 57-78): four fixed text blocks, one per enumerated objective, with the
neutral instruction as the default branch. -/
def getMarketingObjectiveInstructions (objective : String) : String :=
  if objective = "awareness" then
    "The user's goal is 'Create Awareness'. The main goal is to get attention and be memorable.\n                - **subjectiveFitScore**: Should be HIGHEST for messages that are simple, catchy, and have a strong emotional hook (positive like joy/surprise, or even negative if it's attention-grabbing). Prioritize high shareability and clarity.\n                - A message is a POOR FIT if it is too complex, boring, or lacks a strong emotional angle."
  else if objective = "consideration" then
    "The user's goal is 'Drive Consideration'. The main goal is to build trust and inform the user, helping them evaluate the product.\n                - **subjectiveFitScore**: Should be HIGHEST for messages that are informative, benefit-driven, and have a neutral-to-positive, trustworthy tone. Clarity and credibility are key.\n                - A message is a POOR FIT if it's overly emotional, vague, or sounds like high-pressure sales hype."
  else if objective = "sales" then
    "The user's goal is 'Drive Sales (Conversion)'. The main goal is to get the user to take a specific action NOW.\n                - **subjectiveFitScore**: Should be HIGHEST for messages with a very clear, strong Call-to-Action (CTA) that create urgency or scarcity (e.g., using fear of missing out). A slightly anxious or exciting tone is GOOD. The ctaStrengthScore is critical for this objective.\n                - A message is a POOR FIT if the CTA is weak/unclear, or if the tone is too passive and doesn't motivate action."
  else if objective = "loyalty" then
    "The user's goal is 'Build Loyalty (Retention)'. The main goal is to make existing customers feel valued.\n                - **subjectiveFitScore**: Should be HIGHEST for messages with a warm, appreciative, and positive tone. Language of exclusivity (\"for our members\"), community, and gratitude should be rewarded.\n                - A message is a POOR FIT if it feels impersonal, generic, or is too focused on selling instead of thanking or rewarding."
  else defaultObjectiveInstructions

/-- JSON string escaping of one character, as `JSON.stringify` performs it on
the common characters (quote, backslash, newline, tab, carriage return). -/
def jsonEscapeChar (c : Char) : List Char :=
  if c = '"' then ['\\', '"']
  else if c = '\\' then ['\\', '\\']
  else if c = '\n' then ['\\', 'n']
  else if c = '\t' then ['\\', 't']
  else if c = '\r' then ['\\', 'r']
  else [c]

/-- A JSON string literal for `s`. -/
def jsonString (s : String) : String :=
  String.mk ('"' :: s.data.flatMap jsonEscapeChar ++ ['"'])

/-- `JSON.stringify` of an array of strings (no whitespace, as in
JavaScript). -/
def jsonStringArray (l : List String) : String :=
  "[" ++ String.intercalate "," (l.map jsonString) ++ "]"

/-- The fixed tail of the prompt template of src/api/analyze.ts
(lines 153-183): the six scoring criteria, the Final Calculations block with
the exact weighting formula and the three recommendation tiers, and the
output-format instruction. -/
def promptCriteriaAndCalculations : String :=
  "            **Analysis Criteria (Score from 1 to 5):**\n\n            1.  **combinedEmotionScore (1-5):** Analyze the raw emotional tone, independent of intent. 1 is extremely negative, 3 is neutral, 5 is extremely positive.\n            2.  **clarityAndImpactScore (1-5):** Evaluate message quality. 1 is unclear and weak (passive voice, long sentences, jargon). 5 is crystal-clear and powerful (active voice, strong verbs, concise).\n            3.  **trendRelevanceScore (1-5):** Assess relevance to the provided \"Trending Keywords\". 1 is no relevance, 5 is highly relevant and well-integrated.\n            4.  **steppsShareabilityScore (1-5):** Evaluate potential for social sharing. Consider emotional resonance, practical value, and engagement. 1 is low, 5 is high.\n            5.  **ctaStrengthScore (1-5):** Analyze the Call-to-Action. 1 is weak, vague, or missing. 5 is clear, urgent, and persuasive.\n            6.  **subjectiveFitScore (1-5):** This is the most important score. Based on the **Marketing Objective** and any provided **Optional Campaign Details**, how well does the message fit the strategic goal? 1 is a complete mismatch, 5 is a perfect fit.\n\n            **Final Calculations:**\n\n            Using the scores from the analysis, calculate the following:\n\n            1.  **weightedCampaignConfidenceScore:** Calculate a weighted average using these weights:\n                *   subjectiveFitScore: 0.25\n                *   clarityAndImpactScore: 0.20\n                *   combinedEmotionScore: 0.20\n                *   ctaStrengthScore: 0.15\n                *   trendRelevanceScore: 0.10\n                *   steppsShareabilityScore: 0.10\n                Round the final score to two decimal places.\n\n            2.  **recommendation:** Based on the \"weightedCampaignConfidenceScore\", provide one of the following recommendations:\n                *   \"✅ Strong potential to succeed\" (if score >= 4.0)\n                *   \"⚠️ Good, but revise key elements\" (if score >= 3.0 and < 4.0)\n                *   \"❌ Needs rework before launch\" (if score < 3.0)\n\n            **Output Format:**\n\n            Return a JSON object containing a single key \"results\" which is an array of JSON objects, one for each campaign message provided. Strictly adhere to the provided JSON schema for each object in the array.\n          "

/-- The assembled prompt of src/api/analyze.ts (lines 129-183): the fixed
analyst preamble, the objective instructions, the optional details block, the
three JSON-serialised input blocks (campaign messages, keywords, and the
`'CTA Text'` field of each CTA), and the criteria/calculation tail. -/
def buildPrompt (campaigns keywords : List String) (ctas : List CTA)
    (objective : String) (details : CampaignGoalDetails) : String :=
  "\n            You are an expert marketing campaign analyst. Your task is to evaluate one or more campaign messages based on a rigorous set of criteria and the user's specified context. Return the analysis in a structured JSON format.\n\n            **Critical Context: Marketing Objective**\n            "
  ++ getMarketingObjectiveInstructions objective
  ++ "\n            "
  ++ getOptionalDetailsInstructions details
  ++ "\n            \n            **Input Data:**\n\n            1.  **Campaign Messages:**\n                ```json\n                "
  ++ jsonStringArray campaigns
  ++ "\n                ```\n\n            2.  **Trending Keywords:**\n                ```json\n                "
  ++ jsonStringArray keywords
  ++ "\n                ```\n\n            3.  **Call-to-Action (CTA) Examples:**\n                ```json\n                "
  ++ jsonStringArray (ctas.map CTA.ctaText)
  ++ "\n                ```\n\n"
  ++ promptCriteriaAndCalculations

/-- Rounding to two decimal places, as the prompt's Final Calculations block
instructs for the composite score. -/
def roundTo2 (x : ℚ) : ℚ := ((round (100 * x) : ℤ) : ℚ) / 100

/-- The weighted composite score of the prompt's Final Calculations block
(src/api/analyze.ts lines 166-173): the weighting formula the oracle is
instructed to apply, rounded to two decimal places. -/
def weightedScoreRule (subjectiveFitScore clarityAndImpactScore
    combinedEmotionScore ctaStrengthScore trendRelevanceScore
    steppsShareabilityScore : ℚ) : ℚ :=
  roundTo2 (0.25 * subjectiveFitScore + 0.20 * clarityAndImpactScore +
    0.20 * combinedEmotionScore + 0.15 * ctaStrengthScore +
    0.10 * trendRelevanceScore + 0.10 * steppsShareabilityScore)

/-- The recommendation tiers of the prompt's Final Calculations block
(src/api/analyze.ts lines 175-178), thresholding the composite score. -/
def recommendationRule (score : ℚ) : String :=
  if 4 ≤ score then "✅ Strong potential to succeed"
  else if 3 ≤ score then "⚠️ Good, but revise key elements"
  else "❌ Needs rework before launch"

/-- The body of a response of the serverless handler: the plain-text 405
body, a JSON error body with an `error` field and an optional `details`
field, or the 200 body holding the result records. -/
inductive RespBody where
  | text (s : String)
  | jsonError (error : String) (details : Option String)
  | jsonResults (results : List CampaignAnalysisResult)
deriving DecidableEq

/-- An HTTP response of the handler. -/
structure Response where
  status : Nat
  body : RespBody
deriving DecidableEq

/-- The observable outcome of one handler run: the response sent, and whether
the scoring oracle was invoked. -/
structure HandlerOutcome where
  response : Response
  oracleCalled : Bool
deriving DecidableEq

/-- The JSON request body of `POST /api/analyze`; every field may be absent. -/
structure ReqBody where
  campaigns : Option (List String)
  keywords : Option (List String)
  ctas : Option (List CTA)
  objective : Option String
  details : Option CampaignGoalDetails

/-- The serverless handler of src/api/analyze.ts (lines 19-216): 405 on a
non-POST method, 500 when the `API_KEY` environment value is falsy, 400 when
any of the five body fields is falsy (absent, or the empty string for
`objective`), otherwise the oracle is invoked on the assembled prompt and its
parsed results are forwarded with status 200; any failure inside the try
block is a 500 with `error` and `details` fields. -/
def handler (method : String) (apiKey : Option String)
    (oracle : String → Except String (List CampaignAnalysisResult))
    (req : ReqBody) : HandlerOutcome :=
  if method ≠ "POST" then
    ⟨⟨405, RespBody.text ("Method " ++ method ++ " Not Allowed")⟩, false⟩
  else if strFalsy apiKey then
    ⟨⟨500, RespBody.jsonError "API_KEY environment variable not set on the server." none⟩, false⟩
  else
    match req.campaigns, req.keywords, req.ctas, req.objective, req.details with
    | some campaigns, some keywords, some ctas, some objective, some details =>
      if objective = "" then
        ⟨⟨400, RespBody.jsonError "Missing required parameters in request body." none⟩, false⟩
      else
        match oracle (buildPrompt campaigns keywords ctas objective details) with
        | Except.error e =>
          ⟨⟨500, RespBody.jsonError "Failed to analyze campaigns." (some e)⟩, true⟩
        | Except.ok results =>
          ⟨⟨200, RespBody.jsonResults results⟩, true⟩
    | _, _, _, _, _ =>
      ⟨⟨400, RespBody.jsonError "Missing required parameters in request body." none⟩, false⟩

/-- JavaScript `Array.prototype.join(sep)`: the elements joined with the
separator between consecutive elements. -/
def joinWith (sep : String) : List String → String
  | [] => ""
  | [a] => a
  | a :: b :: rest => a ++ sep ++ joinWith sep (b :: rest)

/-- Doubling of every embedded quote character, the
`String(value).replace(/"/g, '""')` step of `convertToCSV` in the results
table (src, `ResultsTable`, lines 262-270). -/
def escQuotes : List Char → List Char
  | [] => []
  | c :: cs => if c = '"' then '"' :: '"' :: escQuotes cs else c :: escQuotes cs

/-- One exported CSV field: the value with quotes doubled, enclosed in double
quotes. -/
def escapeField (v : String) : String :=
  String.mk ('"' :: escQuotes v.data ++ ['"'])

/-- The field names of a `CampaignAnalysisResult`, in declaration order:
`Object.keys(data[0])` of `convertToCSV`. -/
def resultHeaders : List String :=
  ["campaignMessage", "combinedEmotionScore", "clarityAndImpactScore",
   "trendRelevanceScore", "steppsShareabilityScore", "ctaStrengthScore",
   "subjectiveFitScore", "weightedCampaignConfidenceScore", "recommendation"]

/-- The field values of one record in declaration order, as `Object.values`
enumerates them; numeric fields pass through the stringification `numStr`. -/
def resultValues (numStr : ℚ → String) (r : CampaignAnalysisResult) : List String :=
  [r.campaignMessage, numStr r.combinedEmotionScore, numStr r.clarityAndImpactScore,
   numStr r.trendRelevanceScore, numStr r.steppsShareabilityScore,
   numStr r.ctaStrengthScore, numStr r.subjectiveFitScore,
   numStr r.weightedCampaignConfidenceScore, r.recommendation]

/-- One data row of the export: every field value escaped and the results
joined with commas. -/
def csvRow (numStr : ℚ → String) (r : CampaignAnalysisResult) : String :=
  joinWith "," ((resultValues numStr r).map escapeField)

/-- The `convertToCSV` function of the results table (src, `ResultsTable`,
lines 262-270): the header row is read from the keys of `data[0]`, each
record becomes one comma-joined row of quoted fields, and the rows are joined
with newlines.  On the empty list `data[0]` does not exist and the function
throws, modelled as `none`. -/
def convertToCSV (numStr : ℚ → String) (data : List CampaignAnalysisResult) : Option String :=
  match data with
  | [] => none
  | _ :: _ =>
    some (joinWith "\n" (joinWith "," resultHeaders :: data.map (csvRow numStr)))

/-- State machine of a quote-aware CSV reader, consuming the character stream
after the opening quote of the current field: `cur` is the content read so
far of the current field, `row` the completed fields of the current record,
`acc` the completed records.  A doubled quote is a literal quote; a closing
quote must be followed by a comma and an opening quote (next field), a
newline and an opening quote (next record), or the end of the input. -/
def parseRecsAux : List Char → List Char → List String → List (List String) →
    Option (List (List String))
  | [], _, _, _ => none
  | c :: rest, cur, row, acc =>
    if c = '"' then
      match rest with
      | '"' :: rest2 => parseRecsAux rest2 (cur ++ ['"']) row acc
      | ',' :: '"' :: rest3 => parseRecsAux rest3 [] (row ++ [String.mk cur]) acc
      | '\n' :: '"' :: rest3 => parseRecsAux rest3 [] [] (acc ++ [row ++ [String.mk cur]])
      | [] => some (acc ++ [row ++ [String.mk cur]])
      | _ => none
    else
      parseRecsAux rest (cur ++ [c]) row acc

/-- Reads the data rows of a CSV text in which every field is quoted: the
text must open with a quote, and `parseRecsAux` does the rest. -/
def parseRecords (l : List Char) : Option (List (List String)) :=
  match l with
  | '"' :: rest => parseRecsAux rest [] [] []
  | _ => none

/-- Splitting an unquoted line (the header row) at a separator character. -/
def splitOnChar (sep : Char) : List Char → List String
  | [] => [""]
  | c :: cs =>
    if c = sep then "" :: splitOnChar sep cs
    else
      match splitOnChar sep cs with
      | [] => [String.mk [c]]
      | s :: ss => String.mk (c :: s.data) :: ss

/-- Assembles the outcome of parsing a CSV text: the comma-split header and
the rows read by the quote-aware reader. -/
def parseCSVBody (hdr body : List Char) : Option (List String × List (List String)) :=
  match parseRecords body with
  | none => none
  | some rows => some (splitOnChar ',' hdr, rows)

/-- Dispatch on what follows the header row: a newline and the data rows, or
nothing parseable. -/
def parseCSVRest (hdr : List Char) : List Char → Option (List String × List (List String))
  | '\n' :: body => parseCSVBody hdr body
  | _ => none

/-- Parsing an exported CSV text back: the first line is the header row,
split at commas; the remaining lines are read by the quote-aware reader,
unquoting every field and turning doubled quote characters back into single
ones. -/
def parseCSV (s : String) : Option (List String × List (List String)) :=
  parseCSVRest (s.data.takeWhile fun c => c ≠ '\n') (s.data.dropWhile fun c => c ≠ '\n')

/-- A concrete details record with nothing supplied, for witnesses. -/
def emptyDetails : CampaignGoalDetails := ⟨none, none, none, none, none⟩

/-- A concrete CTA record, for witnesses. -/
def sampleCTA : CTA := ⟨"Buy now", some 4, none, none, []⟩

/-- A concrete result record, for witnesses. -/
def sampleResult : CampaignAnalysisResult :=
  ⟨"Hello", 3, 3, 3, 3, 3, 3, 3, "⚠️ Good, but revise key elements"⟩

/-- An oracle that always fails, for witnesses. -/
def errorOracle : String → Except String (List CampaignAnalysisResult) :=
  fun _ => Except.error "upstream failure"

/-- An oracle that returns one fixed record, for witnesses. -/
def singletonOracle : String → Except String (List CampaignAnalysisResult) :=
  fun _ => Except.ok [sampleResult]

/-- A complete request body, for witnesses. -/
def sampleBody : ReqBody :=
  ⟨some ["Hello"], some ["deal"], some [sampleCTA], some "sales", some emptyDetails⟩

/-- The characters of one exported row between its outermost quotes: the
escaped field contents separated by `VALUE_QUOTE comma QUOTE`-boundaries.
Used to state the parser lemmas. -/
def rowRest : List String → List Char
  | [] => []
  | [v] => escQuotes v.data
  | v :: vs => escQuotes v.data ++ '"' :: ',' :: '"' :: rowRest vs

/-- The characters of the exported data rows after the very first quote:
rows separated by `QUOTE newline QUOTE`-boundaries, with a closing quote at
the end.  Used to state the parser lemmas. -/
def bodyRest : List (List String) → List Char
  | [] => []
  | [row] => rowRest row ++ ['"']
  | row :: rows => rowRest row ++ '"' :: '\n' :: '"' :: bodyRest rows

/-- Evaluation lemma for the composite rule: when one hundred times the
weighted sum is the integer `n`, the rounded composite is `n / 100`. -/
theorem weightedScoreRule_eval (s c e t r sh : ℚ) (n : ℤ)
    (h : 100 * (0.25 * s + 0.20 * c + 0.20 * e + 0.15 * t + 0.10 * r + 0.10 * sh) = (n : ℚ)) :
    weightedScoreRule s c e t r sh = (n : ℚ) / 100 := by
  unfold weightedScoreRule roundTo2
  rw [h, round_intCast]

/-- Top recommendation tier. -/
theorem recommendationRule_strong (x : ℚ) (h : 4 ≤ x) :
    recommendationRule x = "✅ Strong potential to succeed" := by
  unfold recommendationRule
  rw [if_pos h]

/-- Middle recommendation tier. -/
theorem recommendationRule_revise (x : ℚ) (h3 : 3 ≤ x) (h4 : ¬ 4 ≤ x) :
    recommendationRule x = "⚠️ Good, but revise key elements" := by
  unfold recommendationRule
  rw [if_neg h4, if_pos h3]

/-- Bottom recommendation tier. -/
theorem recommendationRule_rework (x : ℚ) (h3 : ¬ 3 ≤ x) :
    recommendationRule x = "❌ Needs rework before launch" := by
  unfold recommendationRule
  rw [if_neg fun h => h3 (le_trans (by norm_num) h), if_neg h3]

/-- C1 counterexample: at the all-5 input the composite is 5.00, but the
recommendation the Final Calculations block prescribes for a composite of at
least 4.0 is the emoji-prefixed label, not the bare string the claim names. -/
theorem recommendation_label_has_emoji_prefix :
    weightedScoreRule 5 5 5 5 5 5 = 5 ∧
    recommendationRule (weightedScoreRule 5 5 5 5 5 5) ≠ "Strong potential to succeed" := by
  have h5 : weightedScoreRule 5 5 5 5 5 5 = 5 := by
    rw [weightedScoreRule_eval 5 5 5 5 5 5 500 (by norm_num)]
    norm_num
  refine ⟨h5, ?_⟩
  rw [h5, recommendationRule_strong 5 (by norm_num)]
  decide

/-- C1 (amended): the composite equals the weighted sum of the six component
scores rounded to two decimal places, and the recommendation is the
emoji-prefixed tier label obtained by thresholding the composite: all-5
scores give 5.00 with the first label, all-3 scores give 3.00 with the
second (the 3.0 boundary is inclusive in the middle tier), all-2 scores give
2.00 with the third, with the 4.0 boundary in the top tier. -/
theorem weighted_rule_and_tiers :
    (∀ s c e t r sh : ℚ, weightedScoreRule s c e t r sh =
      ((round ((100 : ℚ) * (0.25 * s + 0.20 * c + 0.20 * e + 0.15 * t +
        0.10 * r + 0.10 * sh)) : ℤ) : ℚ) / 100) ∧
    weightedScoreRule 5 5 5 5 5 5 = 5 ∧
    recommendationRule (weightedScoreRule 5 5 5 5 5 5) = "✅ Strong potential to succeed" ∧
    weightedScoreRule 3 3 3 3 3 3 = 3 ∧
    recommendationRule (weightedScoreRule 3 3 3 3 3 3) = "⚠️ Good, but revise key elements" ∧
    weightedScoreRule 2 2 2 2 2 2 = 2 ∧
    recommendationRule (weightedScoreRule 2 2 2 2 2 2) = "❌ Needs rework before launch" ∧
    recommendationRule 4 = "✅ Strong potential to succeed" ∧
    recommendationRule (399 / 100) = "⚠️ Good, but revise key elements" ∧
    recommendationRule 3 = "⚠️ Good, but revise key elements" ∧
    recommendationRule (299 / 100) = "❌ Needs rework before launch" := by
  have h5 : weightedScoreRule 5 5 5 5 5 5 = 5 := by
    rw [weightedScoreRule_eval 5 5 5 5 5 5 500 (by norm_num)]
    norm_num
  have h3 : weightedScoreRule 3 3 3 3 3 3 = 3 := by
    rw [weightedScoreRule_eval 3 3 3 3 3 3 300 (by norm_num)]
    norm_num
  have h2 : weightedScoreRule 2 2 2 2 2 2 = 2 := by
    rw [weightedScoreRule_eval 2 2 2 2 2 2 200 (by norm_num)]
    norm_num
  refine ⟨fun s c e t r sh => rfl, h5, ?_, h3, ?_, h2, ?_, ?_, ?_, ?_, ?_⟩
  · rw [h5, recommendationRule_strong 5 (by norm_num)]
  · rw [h3, recommendationRule_revise 3 (by norm_num) (by norm_num)]
  · rw [h2, recommendationRule_rework 2 (by norm_num)]
  · rw [recommendationRule_strong 4 (by norm_num)]
  · rw [recommendationRule_revise (399 / 100) (by norm_num) (by norm_num)]
  · rw [recommendationRule_revise 3 (by norm_num) (by norm_num)]
  · rw [recommendationRule_rework (299 / 100) (by norm_num)]

/-- C9: the CSV conversion reads the header row from the fields of the first
record, so on an empty result list it fails (models the `data[0]` access
throwing) rather than producing a header-only file. -/
theorem convertToCSV_empty_fails :
    ∀ numStr : ℚ → String, convertToCSV numStr ([] : List CampaignAnalysisResult) = none :=
  fun _ => rfl

/-- C8: only the `'CTA Text'` field of each CTA influences the assembled
prompt: two requests that agree on campaigns, keywords, objective, details
and on the CTA texts produce identical prompts, whatever the optional
numeric sub-scores and extra fields of the CTAs are. -/
theorem prompt_cta_noninterference (campaigns keywords : List String)
    (ctas1 ctas2 : List CTA) (objective : String) (details : CampaignGoalDetails)
    (h : ctas1.map CTA.ctaText = ctas2.map CTA.ctaText) :
    buildPrompt campaigns keywords ctas1 objective details =
      buildPrompt campaigns keywords ctas2 objective details := by
  unfold buildPrompt
  rw [h]

/-- Witness for C8: two CTA lists with the same text but different sub-scores
and extra fields give the same prompt. -/
theorem prompt_cta_noninterference_witness :
    buildPrompt ["Hello"] ["deal"] [⟨"Go", some 1, none, none, []⟩] "sales" emptyDetails =
      buildPrompt ["Hello"] ["deal"] [⟨"Go", some 2, some 3, some 4, [("Extra", "x")]⟩] "sales" emptyDetails :=
  prompt_cta_noninterference ["Hello"] ["deal"] _ _ "sales" emptyDetails rfl

/-- C3: a POST request whose body lacks any of the five required fields is
answered with the 400 validation error, and the scoring oracle is never
invoked. -/
theorem missing_field_rejected (k : String)
    (oracle : String → Except String (List CampaignAnalysisResult)) (req : ReqBody)
    (hk : k ≠ "")
    (habs : req.campaigns = none ∨ req.keywords = none ∨ req.ctas = none ∨
      req.objective = none ∨ req.details = none) :
    (handler "POST" (some k) oracle req).response.status = 400 ∧
    (handler "POST" (some k) oracle req).response.body =
      RespBody.jsonError "Missing required parameters in request body." none ∧
    (handler "POST" (some k) oracle req).oracleCalled = false := by
  obtain ⟨c, kw, ct, ob, dt⟩ := req
  cases c <;> cases kw <;> cases ct <;> cases ob <;> cases dt <;>
    simp_all [handler, strFalsy]

/-- Witness for C3: a body with `campaigns` absent gets the 400 error and no
oracle call. -/
theorem missing_field_rejected_witness :
    (handler "POST" (some "key") errorOracle
      ⟨none, some ["deal"], some [sampleCTA], some "sales", some emptyDetails⟩).response.status = 400 ∧
    (handler "POST" (some "key") errorOracle
      ⟨none, some ["deal"], some [sampleCTA], some "sales", some emptyDetails⟩).response.body =
      RespBody.jsonError "Missing required parameters in request body." none ∧
    (handler "POST" (some "key") errorOracle
      ⟨none, some ["deal"], some [sampleCTA], some "sales", some emptyDetails⟩).oracleCalled = false :=
  missing_field_rejected "key" errorOracle _ (by decide) (Or.inl rfl)

/-- C4 counterexample: a request with the objective field absent (all other
fields present) is rejected by validation with a 400 error and never reaches
prompt assembly, instead of falling back to the neutral instruction. -/
theorem absent_objective_is_rejected :
    (handler "POST" (some "key") errorOracle
      ⟨some ["Hello"], some ["deal"], some [sampleCTA], none, some emptyDetails⟩).response.status = 400 ∧
    (handler "POST" (some "key") errorOracle
      ⟨some ["Hello"], some ["deal"], some [sampleCTA], none, some emptyDetails⟩).oracleCalled = false := by
  constructor
  · rfl
  · rfl

/-- C4 (amended): for an objective that is present and non-empty but outside
the four enumerated values, prompt assembly uses the neutral
balanced-weighting instruction and the request succeeds; an absent objective
is instead rejected by validation with a 400 error. -/
theorem unrecognized_objective_neutral_fallback
    (ob : String) (hne : ob ≠ "") (ha : ob ≠ "awareness") (hc : ob ≠ "consideration")
    (hs : ob ≠ "sales") (hl : ob ≠ "loyalty") (k : String) (hk : k ≠ "")
    (oracle : String → Except String (List CampaignAnalysisResult))
    (cs ks : List String) (cts : List CTA) (dt : CampaignGoalDetails)
    (results : List CampaignAnalysisResult)
    (hor : oracle (buildPrompt cs ks cts ob dt) = Except.ok results) :
    getMarketingObjectiveInstructions ob = defaultObjectiveInstructions ∧
    handler "POST" (some k) oracle ⟨some cs, some ks, some cts, some ob, some dt⟩ =
      ⟨⟨200, RespBody.jsonResults results⟩, true⟩ ∧
    (handler "POST" (some k) oracle ⟨some cs, some ks, some cts, none, some dt⟩).response.status = 400 := by
  refine ⟨?_, ?_, ?_⟩
  · simp [getMarketingObjectiveInstructions, ha, hc, hs, hl]
  · simp [handler, strFalsy, hk, hne, hor]
  · simp [handler, strFalsy, hk]

/-- Witness for C4 (amended): the unrecognized objective value `branding`
falls back to the neutral instruction and the request succeeds, while the
absent objective gets a 400. -/
theorem unrecognized_objective_neutral_fallback_witness :
    getMarketingObjectiveInstructions "branding" = defaultObjectiveInstructions ∧
    handler "POST" (some "key") singletonOracle
      ⟨some ["Hello"], some ["deal"], some [sampleCTA], some "branding", some emptyDetails⟩ =
      ⟨⟨200, RespBody.jsonResults [sampleResult]⟩, true⟩ ∧
    (handler "POST" (some "key") singletonOracle
      ⟨some ["Hello"], some ["deal"], some [sampleCTA], none, some emptyDetails⟩).response.status = 400 :=
  unrecognized_objective_neutral_fallback "branding" (by decide) (by decide) (by decide)
    (by decide) (by decide) "key" (by decide) singletonOracle ["Hello"] ["deal"]
    [sampleCTA] emptyDetails [sampleResult] rfl

/-- C7 counterexample: on a configuration failure (API key unset) the 500
response body carries only the `error` field; its `details` component is
`none`, so the body does not contain both fields as the claim states. -/
theorem config_error_has_no_details :
    (handler "POST" none errorOracle sampleBody).response =
      ⟨500, RespBody.jsonError "API_KEY environment variable not set on the server." none⟩ := by
  rfl

/-- C7 (amended): a non-POST request is answered 405 with the method named in
the plain-text body; a falsy API key gives a 500 whose JSON body has only an
`error` field (no `details`); a failure of the oracle call gives a 500 whose
JSON body has both the `error` and the `details` field. -/
theorem handler_error_responses :
    (∀ (method : String) (apiKey : Option String)
      (oracle : String → Except String (List CampaignAnalysisResult)) (req : ReqBody),
      method ≠ "POST" →
      handler method apiKey oracle req =
        ⟨⟨405, RespBody.text ("Method " ++ method ++ " Not Allowed")⟩, false⟩) ∧
    (∀ (apiKey : Option String)
      (oracle : String → Except String (List CampaignAnalysisResult)) (req : ReqBody),
      strFalsy apiKey = true →
      handler "POST" apiKey oracle req =
        ⟨⟨500, RespBody.jsonError "API_KEY environment variable not set on the server." none⟩, false⟩) ∧
    (∀ (k : String) (oracle : String → Except String (List CampaignAnalysisResult))
      (cs ks : List String) (cts : List CTA) (ob : String) (dt : CampaignGoalDetails)
      (e : String), k ≠ "" → ob ≠ "" →
      oracle (buildPrompt cs ks cts ob dt) = Except.error e →
      handler "POST" (some k) oracle ⟨some cs, some ks, some cts, some ob, some dt⟩ =
        ⟨⟨500, RespBody.jsonError "Failed to analyze campaigns." (some e)⟩, true⟩) := by
  refine ⟨?_, ?_, ?_⟩
  · intro method apiKey oracle req h
    simp [handler, h]
  · intro apiKey oracle req h
    simp [handler, h]
  · intro k oracle cs ks cts ob dt e hk hob hor
    simp [handler, strFalsy, hk, hob, hor]

/-- Witness for C7 (amended): the three error responses at concrete inputs. -/
theorem handler_error_responses_witness :
    handler "GET" (some "key") errorOracle sampleBody =
      ⟨⟨405, RespBody.text "Method GET Not Allowed"⟩, false⟩ ∧
    handler "POST" none errorOracle sampleBody =
      ⟨⟨500, RespBody.jsonError "API_KEY environment variable not set on the server." none⟩, false⟩ ∧
    handler "POST" (some "key") errorOracle sampleBody =
      ⟨⟨500, RespBody.jsonError "Failed to analyze campaigns." (some "upstream failure")⟩, true⟩ :=
  ⟨handler_error_responses.1 "GET" (some "key") errorOracle sampleBody (by decide),
   handler_error_responses.2.1 none errorOracle sampleBody rfl,
   handler_error_responses.2.2 "key" errorOracle ["Hello"] ["deal"] [sampleCTA]
     "sales" emptyDetails "upstream failure" (by decide) (by decide) rfl⟩

/-- C2: for a valid request, the handler forwards the oracle's parsed result
array unchanged with status 200; when the oracle meets its declared output
contract of one record per submitted campaign message in order, the response
therefore has exactly one record per campaign, in matching order. -/
theorem analyze_result_count_matches (k : String) (hk : k ≠ "")
    (oracle : String → Except String (List CampaignAnalysisResult))
    (cs ks : List String) (cts : List CTA) (ob : String) (hob : ob ≠ "")
    (dt : CampaignGoalDetails) (results : List CampaignAnalysisResult)
    (hor : oracle (buildPrompt cs ks cts ob dt) = Except.ok results)
    (hlen : results.length = cs.length)
    (hord : ∀ (i : ℕ) (h1 : i < results.length) (h2 : i < cs.length),
      (results.get ⟨i, h1⟩).campaignMessage = cs.get ⟨i, h2⟩) :
    handler "POST" (some k) oracle ⟨some cs, some ks, some cts, some ob, some dt⟩ =
      ⟨⟨200, RespBody.jsonResults results⟩, true⟩ ∧
    results.length = cs.length ∧
    ∀ (i : ℕ) (h1 : i < results.length) (h2 : i < cs.length),
      (results.get ⟨i, h1⟩).campaignMessage = cs.get ⟨i, h2⟩ :=
  ⟨by simp [handler, strFalsy, hk, hob, hor], hlen, hord⟩

/-- Witness for C2: a one-campaign request with a compliant oracle yields
exactly one record whose message matches the submitted campaign. -/
theorem analyze_result_count_matches_witness :
    handler "POST" (some "key") singletonOracle
      ⟨some ["Hello"], some ["deal"], some [sampleCTA], some "sales", some emptyDetails⟩ =
      ⟨⟨200, RespBody.jsonResults [sampleResult]⟩, true⟩ ∧
    ([sampleResult] : List CampaignAnalysisResult).length = (["Hello"] : List String).length ∧
    ∀ (i : ℕ) (h1 : i < ([sampleResult] : List CampaignAnalysisResult).length)
      (h2 : i < (["Hello"] : List String).length),
      (([sampleResult] : List CampaignAnalysisResult).get ⟨i, h1⟩).campaignMessage =
        (["Hello"] : List String).get ⟨i, h2⟩ :=
  analyze_result_count_matches "key" (by decide) singletonOracle ["Hello"] ["deal"]
    [sampleCTA] "sales" (by decide) emptyDetails [sampleResult] rfl rfl
    (by
      intro i h1 h2
      cases i with
      | zero => rfl
      | succ n => simp at h1)

/-- C10: validation tests falsiness, not absence: empty `campaigns`,
`keywords` and `ctas` arrays pass validation and the oracle is still
invoked, while an empty-string `objective` is falsy and is rejected with the
400 validation error before any oracle call. -/
theorem empty_arrays_pass_validation (k : String) (hk : k ≠ "")
    (oracle : String → Except String (List CampaignAnalysisResult))
    (s : String) (hs : s ≠ "") (dt : CampaignGoalDetails) :
    (handler "POST" (some k) oracle ⟨some [], some [], some [], some s, some dt⟩).oracleCalled = true ∧
    (handler "POST" (some k) oracle ⟨some [], some [], some [], some "", some dt⟩).response.status = 400 ∧
    (handler "POST" (some k) oracle ⟨some [], some [], some [], some "", some dt⟩).oracleCalled = false := by
  refine ⟨?_, ?_, ?_⟩
  · rcases h : oracle (buildPrompt [] [] [] s dt) with e | results <;>
      simp [handler, strFalsy, hk, hs, h]
  · simp [handler, strFalsy, hk]
  · simp [handler, strFalsy, hk]

/-- Witness for C10: the concrete empty-array body triggers the oracle, and
the empty-string objective is rejected. -/
theorem empty_arrays_pass_validation_witness :
    (handler "POST" (some "key") errorOracle
      ⟨some [], some [], some [], some "sales", some emptyDetails⟩).oracleCalled = true ∧
    (handler "POST" (some "key") errorOracle
      ⟨some [], some [], some [], some "", some emptyDetails⟩).response.status = 400 ∧
    (handler "POST" (some "key") errorOracle
      ⟨some [], some [], some [], some "", some emptyDetails⟩).oracleCalled = false :=
  empty_arrays_pass_validation "key" (by decide) errorOracle "sales" (by decide) emptyDetails

/-- Structure eta for strings: rebuilding a string from its characters gives
the string back. -/
@[simp]
theorem String_mk_data (s : String) : String.mk s.data = s := rfl

/-- Step lemma: a doubled quote inside a field is a literal quote. -/
theorem parseRecsAux_dquote (rest2 cur : List Char) (row : List String)
    (acc : List (List String)) :
    parseRecsAux ('"' :: '"' :: rest2) cur row acc =
      parseRecsAux rest2 (cur ++ ['"']) row acc := rfl

/-- Step lemma: closing quote, comma, opening quote ends the current field
and starts the next one. -/
theorem parseRecsAux_comma (rest3 cur : List Char) (row : List String)
    (acc : List (List String)) :
    parseRecsAux ('"' :: ',' :: '"' :: rest3) cur row acc =
      parseRecsAux rest3 [] (row ++ [String.mk cur]) acc := rfl

/-- Step lemma: closing quote, newline, opening quote ends the current record
and starts the next one. -/
theorem parseRecsAux_newline (rest3 cur : List Char) (row : List String)
    (acc : List (List String)) :
    parseRecsAux ('"' :: '\n' :: '"' :: rest3) cur row acc =
      parseRecsAux rest3 [] [] (acc ++ [row ++ [String.mk cur]]) := rfl

/-- Step lemma: a closing quote at the end of the input ends the last field
and the last record. -/
theorem parseRecsAux_close_end (cur : List Char) (row : List String)
    (acc : List (List String)) :
    parseRecsAux ['"'] cur row acc = some (acc ++ [row ++ [String.mk cur]]) := rfl

/-- Step lemma: any character other than a quote is appended to the current
field. -/
theorem parseRecsAux_other (c : Char) (hc : c ≠ '"') (rest cur : List Char)
    (row : List String) (acc : List (List String)) :
    parseRecsAux (c :: rest) cur row acc = parseRecsAux rest (cur ++ [c]) row acc := by
  rw [parseRecsAux.eq_def]
  simp [hc]

/-- Unfolding lemma for `rowRest` on a one-field row. -/
theorem rowRest_single (v : String) : rowRest [v] = escQuotes v.data := rfl

/-- Unfolding lemma for `rowRest` on a longer row. -/
theorem rowRest_cons (v v2 : String) (vs : List String) :
    rowRest (v :: v2 :: vs) = escQuotes v.data ++ '"' :: ',' :: '"' :: rowRest (v2 :: vs) := rfl

/-- Unfolding lemma for `bodyRest` on the last row. -/
theorem bodyRest_single (row : List String) : bodyRest [row] = rowRest row ++ ['"'] := rfl

/-- Unfolding lemma for `bodyRest` on a longer row list. -/
theorem bodyRest_cons (row row2 : List String) (rows : List (List String)) :
    bodyRest (row :: row2 :: rows) =
      rowRest row ++ '"' :: '\n' :: '"' :: bodyRest (row2 :: rows) := rfl

/-- Unfolding lemma for `escQuotes` on a quote character. -/
theorem escQuotes_quote (v : List Char) :
    escQuotes ('"' :: v) = '"' :: '"' :: escQuotes v := rfl

/-- Unfolding lemma for `escQuotes` on any other character. -/
theorem escQuotes_other (c : Char) (hc : c ≠ '"') (v : List Char) :
    escQuotes (c :: v) = c :: escQuotes v := by
  simp [escQuotes, hc]

/-- Processing escaped field content inside a quoted field appends exactly
the original content to the current field and continues with the rest of the
input: doubled quotes come back as single quotes, every other character
passes through. -/
theorem parseRecsAux_esc (v : List Char) (l cur : List Char) (row : List String)
    (acc : List (List String)) :
    parseRecsAux (escQuotes v ++ l) cur row acc = parseRecsAux l (cur ++ v) row acc := by
  induction v generalizing cur with
  | nil => simp [escQuotes]
  | cons c v ih =>
    by_cases hc : c = '"'
    · subst hc
      rw [escQuotes_quote, List.cons_append, List.cons_append, parseRecsAux_dquote, ih]
      simp
    · rw [escQuotes_other c hc, List.cons_append, parseRecsAux_other c hc, ih]
      simp

/-- Reading one full row whose closing quote ends the input: all its fields
are appended to the current record, which is closed and appended to the
accumulator. -/
theorem parseRecsAux_row_end (v : String) (vs : List String) (row : List String)
    (acc : List (List String)) :
    parseRecsAux (rowRest (v :: vs) ++ ['"']) [] row acc = some (acc ++ [row ++ v :: vs]) := by
  induction vs generalizing v row with
  | nil =>
    rw [rowRest_single, parseRecsAux_esc, List.nil_append, parseRecsAux_close_end]
  | cons v2 vs ih =>
    rw [rowRest_cons]
    simp only [List.append_assoc, List.cons_append]
    rw [parseRecsAux_esc, List.nil_append, parseRecsAux_comma, ih v2]
    simp

/-- Reading one full row whose closing quote is followed by a newline and the
opening quote of the next row: the record is closed and parsing continues on
the rest. -/
theorem parseRecsAux_row_cont (v : String) (vs : List String) (row : List String)
    (acc : List (List String)) (l : List Char) :
    parseRecsAux (rowRest (v :: vs) ++ '"' :: '\n' :: '"' :: l) [] row acc =
      parseRecsAux l [] [] (acc ++ [row ++ v :: vs]) := by
  induction vs generalizing v row with
  | nil =>
    rw [rowRest_single, parseRecsAux_esc, List.nil_append, parseRecsAux_newline]
  | cons v2 vs ih =>
    rw [rowRest_cons]
    simp only [List.append_assoc, List.cons_append]
    rw [parseRecsAux_esc, List.nil_append, parseRecsAux_comma, ih v2]
    simp

/-- Reading all exported rows: the parser returns exactly the list of rows,
appended to the accumulator. -/
theorem parseRecsAux_body (rows : List (List String)) (hne : rows ≠ [])
    (hrow : ∀ r ∈ rows, r ≠ []) (acc : List (List String)) :
    parseRecsAux (bodyRest rows) [] [] acc = some (acc ++ rows) := by
  induction rows generalizing acc with
  | nil => exact absurd rfl hne
  | cons row rows ih =>
    obtain ⟨v, vs, rfl⟩ : ∃ v vs, row = v :: vs := by
      cases row with
      | nil => exact absurd rfl (hrow [] (by simp))
      | cons v vs => exact ⟨v, vs, rfl⟩
    cases rows with
    | nil =>
      rw [bodyRest_single, parseRecsAux_row_end]
      simp
    | cons row2 rows2 =>
      rw [bodyRest_cons, parseRecsAux_row_cont]
      simp only [List.nil_append]
      rw [ih (by simp) (fun r hr => hrow r (by simp [hr])) (acc ++ [v :: vs])]
      simp

/-- The characters of one comma-joined row of escaped fields are the opening
quote, the row-interior characters, and the closing quote. -/
theorem joinWith_row_data (v : String) (vs : List String) :
    (joinWith "," ((v :: vs).map escapeField)).data = '"' :: rowRest (v :: vs) ++ ['"'] := by
  induction vs generalizing v with
  | nil =>
    show (escapeField v).data = _
    rw [rowRest_single]
    rfl
  | cons v2 vs ih =>
    show (escapeField v ++ "," ++ joinWith "," ((v2 :: vs).map escapeField)).data = _
    rw [String.data_append, String.data_append, ih v2, rowRest_cons]
    show ('"' :: escQuotes v.data ++ ['"']) ++ [','] ++ _ = _
    simp

/-- The characters of the newline-joined data rows are the opening quote of
the first row followed by the body interior. -/
theorem joinWith_rows_data (rows : List (List String)) (hne : rows ≠ [])
    (hrow : ∀ r ∈ rows, r ≠ []) :
    (joinWith "\n" (rows.map fun r => joinWith "," (r.map escapeField))).data =
      '"' :: bodyRest rows := by
  induction rows with
  | nil => exact absurd rfl hne
  | cons row rows ih =>
    obtain ⟨v, vs, rfl⟩ : ∃ v vs, row = v :: vs := by
      cases row with
      | nil => exact absurd rfl (hrow [] (by simp))
      | cons v vs => exact ⟨v, vs, rfl⟩
    cases rows with
    | nil =>
      show (joinWith "," ((v :: vs).map escapeField)).data = _
      rw [joinWith_row_data, bodyRest_single]
      simp
    | cons row2 rows2 =>
      show (joinWith "," ((v :: vs).map escapeField) ++ "\n" ++
        joinWith "\n" ((row2 :: rows2).map fun r => joinWith "," (r.map escapeField))).data = _
      rw [String.data_append, String.data_append, joinWith_row_data,
        ih (by simp) (fun r hr => hrow r (by simp [hr])), bodyRest_cons]
      simp

/-- Splitting a list at an element none of whose predecessors satisfies the
predicate: `takeWhile` keeps exactly the prefix and `dropWhile` starts at the
separator. -/
theorem takeWhile_dropWhile_append (p : Char → Bool) (l1 : List Char) (a : Char)
    (l2 : List Char) (h1 : ∀ c ∈ l1, p c = true) (h2 : p a = false) :
    (l1 ++ a :: l2).takeWhile p = l1 ∧ (l1 ++ a :: l2).dropWhile p = a :: l2 := by
  induction l1 with
  | nil => simp [List.takeWhile_cons, List.dropWhile_cons, h2]
  | cons c l1 ih =>
    have hc : p c = true := h1 c (by simp)
    have := ih fun x hx => h1 x (by simp [hx])
    simp [List.takeWhile_cons, List.dropWhile_cons, hc, this.1, this.2]

/-- Characterization of `parseCSV` on a text made of a newline-free header
line followed by a body the row reader accepts. -/
theorem parseCSV_eq (s : String) (hdr body : List Char) (rows : List (List String))
    (hs : s.data = hdr ++ '\n' :: body)
    (hnl : ∀ c ∈ hdr, (decide (c ≠ '\n')) = true)
    (hrec : parseRecords body = some rows) :
    parseCSV s = some (splitOnChar ',' hdr, rows) := by
  obtain ⟨htake, hdrop⟩ :=
    takeWhile_dropWhile_append (fun c => decide (c ≠ '\n')) hdr '\n' body hnl (by decide)
  unfold parseCSV
  rw [hs, hdrop, htake]
  rw [show parseCSVRest hdr ('\n' :: body) = parseCSVBody hdr body from rfl]
  simp [parseCSVBody, hrec]

set_option maxRecDepth 100000 in
/-- C5: CSV round trip.  For every non-empty result set the export succeeds,
and parsing the produced text back (header row split at commas, every field
unquoted with doubled quote characters restored to single ones) returns
exactly the header names and the original field values of every record, in
order — for any stringification of the numeric fields. -/
theorem convertToCSV_roundtrip (numStr : ℚ → String) (r : CampaignAnalysisResult)
    (rs : List CampaignAnalysisResult) :
    (convertToCSV numStr (r :: rs)).bind parseCSV =
      some (resultHeaders, (r :: rs).map (resultValues numStr)) := by
  have hrowne : ∀ x ∈ (r :: rs).map (resultValues numStr), x ≠ [] := by
    intro x hx
    obtain ⟨y, hy, rfl⟩ := List.mem_map.mp hx
    simp [resultValues]
  have hne : (r :: rs).map (resultValues numStr) ≠ [] := by simp
  have hmap : (r :: rs).map (csvRow numStr) =
      ((r :: rs).map (resultValues numStr)).map fun vs => joinWith "," (vs.map escapeField) := by
    rw [List.map_map]
    rfl
  have hbody : (joinWith "\n" ((r :: rs).map (csvRow numStr))).data =
      '"' :: bodyRest ((r :: rs).map (resultValues numStr)) := by
    rw [hmap]
    exact joinWith_rows_data _ (by simp) hrowne
  have hrec : parseRecords ('"' :: bodyRest ((r :: rs).map (resultValues numStr))) =
      some ((r :: rs).map (resultValues numStr)) := by
    rw [show parseRecords ('"' :: bodyRest ((r :: rs).map (resultValues numStr))) =
      parseRecsAux (bodyRest ((r :: rs).map (resultValues numStr))) [] [] [] from rfl]
    rw [parseRecsAux_body _ hne hrowne]
    rfl
  have hdata : (joinWith "\n" (joinWith "," resultHeaders :: (r :: rs).map (csvRow numStr))).data =
      (joinWith "," resultHeaders).data ++ '\n' ::
        ('"' :: bodyRest ((r :: rs).map (resultValues numStr))) := by
    show ((joinWith "," resultHeaders) ++ "\n" ++
      joinWith "\n" ((r :: rs).map (csvRow numStr))).data = _
    rw [String.data_append, String.data_append, hbody]
    simp [show ("\n" : String).data = ['\n'] from rfl]
  have hnl : ∀ c ∈ (joinWith "," resultHeaders).data, (decide (c ≠ '\n')) = true := by decide
  have hsplit : splitOnChar ',' (joinWith "," resultHeaders).data = resultHeaders := by decide
  show (some (joinWith "\n" (joinWith "," resultHeaders ::
    (r :: rs).map (csvRow numStr)))).bind parseCSV = _
  rw [Option.some_bind]
  rw [parseCSV_eq _ _ _ _ hdata hnl hrec, hsplit]

/-- C6: for every non-empty result set the exported text is the header row of
field names followed, one line per record, by the comma-joined escaped field
values; the escaping of each value encloses it in double quotes with every
embedded quote character doubled. -/
theorem convertToCSV_format (numStr : ℚ → String) (r : CampaignAnalysisResult)
    (rs : List CampaignAnalysisResult) :
    convertToCSV numStr (r :: rs) =
      some (joinWith "\n" (joinWith "," resultHeaders ::
        (r :: rs).map fun x => joinWith "," ((resultValues numStr x).map escapeField))) ∧
    ((r :: rs).map fun x => joinWith "," ((resultValues numStr x).map escapeField)).length =
      (r :: rs).length ∧
    ∀ v : String, (escapeField v).data =
      '"' :: (v.data.flatMap fun c => if c = '"' then ['"', '"'] else [c]) ++ ['"'] := by
  refine ⟨rfl, by simp, ?_⟩
  intro v
  have h : ∀ l : List Char,
      escQuotes l = l.flatMap fun c => if c = '"' then ['"', '"'] else [c] := by
    intro l
    induction l with
    | nil => rfl
    | cons c cs ih =>
      by_cases hc : c = '"'
      · subst hc
        rw [escQuotes_quote, ih]
        simp
      · rw [escQuotes_other c hc, ih]
        simp [hc]
  show '"' :: escQuotes v.data ++ ['"'] = _
  rw [h]
